import Mathlib

/-!
Verification of the ollama-like chat application: a shallow embedding of the
FastAPI model service (src/api.py) and the interactive terminal client
(src/chat.py), with theorems settling the specification's claims about
message assembly, history truncation, the attention mask, the fallback
prompt, error handling and the logging middleware.

External collaborators (the tokenizer, the model, the HTTP transport) are
modelled as abstract function parameters: the embedding captures exactly the
glue logic written in the repository.
-/

namespace OllamaLike

/-- A single chat message, mirroring the pydantic `Message` model of
src/api.py (`role : str`, `content : str`). -/
structure Message where
  role : String
  content : String
deriving DecidableEq, Repr

/-- The body of a `POST /chat` request, mirroring the pydantic `ChatRequest`
model of src/api.py.  `temperature` is carried as a rational number: the
code only passes it through unchanged, no floating-point arithmetic is
performed on it. -/
structure ChatRequest where
  message : String
  history : List Message := []
  max_length : Nat := 200
  temperature : ℚ := 7/10
deriving DecidableEq, Repr

/-- The body of a successful `/chat` response: `{"response": text}`. -/
structure ChatResponse where
  response : String
deriving DecidableEq, Repr

/-- An HTTP error response as raised by `HTTPException(status_code, detail)`
in src/api.py. -/
structure HTTPError where
  status : Nat
  detail : String
deriving DecidableEq, Repr

/-- The external tokenizer/model pair loaded at startup in src/api.py,
abstracted: each operation that calls into the ML library is a function
parameter, fallible operations return `Except` (a Python exception becomes
an `error`). `applyChatTemplate` stands for
`tokenizer.apply_chat_template(messages, add_generation_prompt=True)`,
`encode` for `tokenizer.encode`, `generate` for `model.generate` (arguments:
input ids, attention mask, max new tokens, temperature, pad token id) and
returns the full output sequence `outputs[0]`; `decode` stands for
`tokenizer.decode(..., skip_special_tokens=True)`. -/
structure ModelEnv where
  hasChatTemplate : Bool
  applyChatTemplate : List Message → Except String (List Nat)
  encode : String → Except String (List Nat)
  pad_token_id : Nat
  eos_token_id : Nat
  generate : List Nat → List Nat → Nat → ℚ → Nat → Except String (List Nat)
  decode : List Nat → Except String String

/-- Step 1 of the `/chat` endpoint (src/api.py lines 136-142): copy every
history entry into a fresh `{"role": ..., "content": ...}` dict, then append
the latest user message as `{"role": "user", "content": request.message}`. -/
def assembleMessages (history : List Message) (message : String) : List Message :=
  (history.map fun msg => { role := msg.role, content := msg.content }) ++
    [{ role := "user", content := message }]

/-- The fallback transcript of src/api.py line 165:
`"\n".join([f"\x7bm['role']\x7d: \x7bm['content']\x7d" for m in messages])`. -/
def fallbackContext (messages : List Message) : String :=
  String.intercalate "\n" (messages.map fun m => m.role ++ ": " ++ m.content)

/-- Step 2 of the `/chat` endpoint (src/api.py lines 145-166): use the chat
template when the tokenizer has one, otherwise encode the plain
`role: content` transcript. -/
def promptIds (env : ModelEnv) (messages : List Message) :
    Except String (List Nat) :=
  if env.hasChatTemplate then
    env.applyChatTemplate messages
  else
    env.encode (fallbackContext messages)

/-- The attention mask of src/api.py line 174:
`(input_ids != tokenizer.pad_token_id).long()` — one flag per input
position, `1` where the token differs from the pad token id, `0` where it
equals it. -/
def attentionMask (input_ids : List Nat) (pad_token_id : Nat) : List Nat :=
  input_ids.map fun t => if t = pad_token_id then 0 else 1

/-- Whether position holding token `t` counts as a genuine input token (as
opposed to padding) for this tokenizer: the only notion of padding in the
code is the pad token id. -/
def isGenuineToken (pad_token_id t : Nat) : Bool :=
  t ≠ pad_token_id

/-- The body of the `try:` block of the `/chat` endpoint (src/api.py lines
136-191): assemble messages, render the prompt, build the attention mask,
generate, and decode only the tokens after the input length
(`outputs[0][input_ids.shape[-1]:]`).  Any stage's exception short-circuits
as an `error`. -/
def chatPipeline (env : ModelEnv) (req : ChatRequest) : Except String String := do
  let messages := assembleMessages req.history req.message
  let input_ids ← promptIds env messages
  let mask := attentionMask input_ids env.pad_token_id
  let outputs ← env.generate input_ids mask req.max_length req.temperature
    env.eos_token_id
  let response_text ← env.decode (outputs.drop input_ids.length)
  pure response_text

/-- The `/chat` endpoint (src/api.py lines 125-196): on success return
`{"response": response_text}`, on any exception raise
`HTTPException(status_code=500, detail=str(e))`. -/
def chat (env : ModelEnv) (req : ChatRequest) : Except HTTPError ChatResponse :=
  match chatPipeline env req with
  | .ok text => .ok { response := text }
  | .error e => .error { status := 500, detail := e }

/-- The logging middleware `log_requests` of src/api.py lines 99-113.  The
downstream handler is modelled as a function from the invocation index to
its outcome, so the number of invocations is observable; the middleware
returns how many times it invoked the handler together with the final
outcome.  Faithful to the code: `await call_next(request)` in the `try:`,
and on exception it logs and then `return await call_next(request)` again. -/
def log_requests {R : Type} (call_next : Nat → Except String R) :
    Nat × Except String R :=
  match call_next 0 with
  | .ok response => (1, .ok response)
  | .error _ => (2, call_next 1)

/-- Python `l[-n:]`: the at-most-`n` most recent entries of `l`. -/
def lastN {α : Type} (n : Nat) (l : List α) : List α :=
  l.drop (l.length - n)

/-- The whitespace characters removed by Python's `str.strip()` with no
argument: space, tab, newline, carriage return, vertical tab, form feed. -/
def isPySpace (c : Char) : Bool :=
  c = ' ' || c = '\t' || c = '\n' || c = '\r' || c = '\x0b' || c = '\x0c'

/-- Python's `str.strip()`: remove leading and trailing whitespace. -/
def pyStrip (s : String) : String :=
  ⟨((s.data.dropWhile isPySpace).reverse.dropWhile isPySpace).reverse⟩

/-- Lowercasing of one character as done by Python's `str.lower()` on the
ASCII range (the only characters the client compares against). -/
def lowerChar (c : Char) : Char :=
  if 'A' ≤ c ∧ c ≤ 'Z' then Char.ofNat (c.toNat + 32) else c

/-- Python's `str.lower()`. -/
def pyLower (s : String) : String :=
  ⟨s.data.map lowerChar⟩

/-- The request payload built by the client for one turn (src/chat.py lines
39-44): the stripped user input, the last 10 history entries, a
`max_length` of 500 and temperature 0.7. -/
def buildPayload (history : List Message) (input : String) : ChatRequest :=
  { message := input
    history := lastN 10 history
    max_length := 500
    temperature := 7/10 }

/-- The client's history update after a successful turn (src/chat.py lines
60-66): append the user message and the stripped bot response, then keep
only the last 20 entries when the list exceeds 20. -/
def updateHistory (history : List Message) (input bot : String) :
    List Message :=
  if (history ++ [({ role := "user", content := input } : Message),
                  ({ role := "assistant", content := bot } : Message)]).length > 20 then
    lastN 20 (history ++ [{ role := "user", content := input },
                          { role := "assistant", content := bot }])
  else
    history ++ [{ role := "user", content := input },
                { role := "assistant", content := bot }]

/-- The outcome of the client's `httpx.post` call, as discriminated by the
`except` clauses of src/chat.py lines 68-78. -/
inductive ServerReply where
  | ok (response : String)
  | httpError (status : Nat) (detail : Option String)
  | requestError (msg : String)
deriving DecidableEq, Repr

/-- What one iteration of the client loop did: the new local history,
whether an HTTP chat request was issued, and whether the loop exited. -/
structure StepOut where
  history : List Message
  sentRequest : Bool
  exited : Bool
deriving DecidableEq, Repr

/-- One iteration of the client loop `main` of src/chat.py (lines 23-80):
strip the input; skip empty input; `quit`/`exit` leave the loop; `clear`
resets the history without contacting the server; anything else is sent as
a chat turn, whose outcome `reply` decides whether the history grows. -/
def clientStep (history : List Message) (raw : String) (reply : ServerReply) :
    StepOut :=
  let user_input := pyStrip raw
  if user_input = "" then
    { history := history, sentRequest := false, exited := false }
  else if pyLower user_input = "quit" ∨ pyLower user_input = "exit" then
    { history := history, sentRequest := false, exited := true }
  else if pyLower user_input = "clear" then
    { history := [], sentRequest := false, exited := false }
  else
    match reply with
    | .ok bot =>
        { history := updateHistory history user_input (pyStrip bot)
          sentRequest := true, exited := false }
    | .httpError _ _ =>
        { history := history, sentRequest := true, exited := false }
    | .requestError _ =>
        { history := history, sentRequest := true, exited := false }

/-- A completed interaction with the client loop, abstracted to the events
that change the local history: a completed successful turn (user input and
the bot's reply as appended) or a `clear` command. -/
inductive ClientEvent where
  | turn (input bot : String)
  | clear
deriving DecidableEq, Repr

/-- Effect of one history-changing event on the local history. -/
def applyEvent (h : List Message) : ClientEvent → List Message
  | .turn input bot => updateHistory h input bot
  | .clear => []

/-- The client's local history after a sequence of history-changing events,
starting from the empty history it is created with (src/chat.py line 12). -/
def runClient (events : List ClientEvent) : List Message :=
  events.foldl applyEvent []

/-- The pairwise user/assistant alternation invariant of the local history:
consecutive pairs, each a `user` message followed by an `assistant`
message. -/
def alternatingPairs : List Message → Bool
  | [] => true
  | [_] => false
  | u :: a :: rest =>
      u.role == "user" && a.role == "assistant" && alternatingPairs rest

/-- The conjunction of the client-side history invariants: bounded by 20
entries, even length, and user/assistant pairwise alternation. -/
def goodHistory (h : List Message) : Prop :=
  h.length ≤ 20 ∧ Even h.length ∧ alternatingPairs h = true

/-- A concrete model environment whose generation always succeeds, used to
exercise the service on explicit inputs. -/
def sampleEnv : ModelEnv where
  hasChatTemplate := true
  applyChatTemplate := fun _ => .ok [1, 2, 3]
  encode := fun _ => .ok [1]
  pad_token_id := 0
  eos_token_id := 2
  generate := fun ids _ _ _ _ => .ok (ids ++ [5, 6])
  decode := fun _ => .ok "Hi there!"

/-- A concrete model environment whose generation step raises, used to
exercise the service's error path on explicit inputs. -/
def failEnv : ModelEnv where
  hasChatTemplate := true
  applyChatTemplate := fun _ => .ok [1, 2, 3]
  encode := fun _ => .ok [1]
  pad_token_id := 0
  eos_token_id := 2
  generate := fun _ _ _ _ _ => .error "CUDA out of memory"
  decode := fun _ => .ok ""

/-- A concrete model environment whose tokenizer lacks
`apply_chat_template`, used to exercise the fallback prompt path on
explicit inputs. -/
def noTemplateEnv : ModelEnv where
  hasChatTemplate := false
  applyChatTemplate := fun _ => .error "no template"
  encode := fun s => .ok [s.length]
  pad_token_id := 0
  eos_token_id := 2
  generate := fun ids _ _ _ _ => .ok (ids ++ [4])
  decode := fun _ => .ok "ok"

/-! ### Helper lemmas -/

theorem lastN_length {α : Type} (n : Nat) (l : List α) :
    (lastN n l).length = l.length - (l.length - n) := by
  simp [lastN]

theorem lastN_length_le {α : Type} (n : Nat) (l : List α) :
    (lastN n l).length ≤ n := by
  simp [lastN]
  omega

theorem lastN_suffix {α : Type} (n : Nat) (l : List α) :
    lastN n l <:+ l :=
  List.drop_suffix _ _

theorem updateHistory_length_le (h : List Message) (input bot : String) :
    (updateHistory h input bot).length ≤ 20 := by
  unfold updateHistory
  split
  · exact lastN_length_le _ _
  · simp_all

theorem alternatingPairs_append_pair (h : List Message) (input bot : String)
    (ha : alternatingPairs h = true) :
    alternatingPairs (h ++ [{ role := "user", content := input },
                            { role := "assistant", content := bot }]) = true := by
  induction h using alternatingPairs.induct with
  | case1 => simp [alternatingPairs]
  | case2 x => simp [alternatingPairs] at ha
  | case3 u a rest ih =>
      simp only [alternatingPairs, Bool.and_eq_true, beq_iff_eq] at ha ⊢
      exact ⟨ha.1, ih ha.2⟩

theorem alternatingPairs_drop_two (l : List Message)
    (ha : alternatingPairs l = true) :
    alternatingPairs (l.drop 2) = true := by
  match l with
  | [] => simpa using ha
  | [x] => simp [alternatingPairs] at ha
  | u :: a :: rest =>
      simp only [alternatingPairs, Bool.and_eq_true] at ha
      simpa using ha.2

theorem alternatingPairs_drop_even (k : Nat) (l : List Message)
    (ha : alternatingPairs l = true) :
    alternatingPairs (l.drop (2 * k)) = true := by
  induction k generalizing l with
  | zero => simpa using ha
  | succ m ih =>
      have hdd : l.drop (2 * (m + 1)) = (l.drop 2).drop (2 * m) := by
        rw [List.drop_drop]
        ring_nf
      rw [hdd]
      exact ih _ (alternatingPairs_drop_two l ha)

theorem updateHistory_good (h : List Message) (input bot : String)
    (hg : goodHistory h) : goodHistory (updateHistory h input bot) := by
  obtain ⟨hlen, heven, halt⟩ := hg
  set h' := h ++ [{ role := "user", content := input },
                  { role := "assistant", content := bot }] with hh'
  have hlen' : h'.length = h.length + 2 := by simp [hh']
  have heven' : Even h'.length := by
    rw [hlen']
    exact heven.add (by decide)
  have halt' : alternatingPairs h' = true :=
    alternatingPairs_append_pair h input bot halt
  unfold updateHistory
  rw [← hh']
  split

  · have hsub : Even (h'.length - 20) := heven'.tsub (by decide)
    obtain ⟨k, hk⟩ := hsub
    refine ⟨lastN_length_le _ _, ?_, ?_⟩
    · rw [lastN_length]
      have : h'.length - (h'.length - 20) = 20 := by omega
      rw [this]
      decide
    · have : lastN 20 h' = h'.drop (2 * k) := by
        rw [lastN, hk]
        ring_nf
      rw [this]
      exact alternatingPairs_drop_even k h' halt'
  · refine ⟨by omega, heven', halt'⟩

theorem runClient_good (events : List ClientEvent) :
    goodHistory (runClient events) := by
  have base : goodHistory ([] : List Message) := ⟨by decide, by decide, rfl⟩
  rw [runClient]
  generalize hstart : ([] : List Message) = start at base
  clear hstart
  induction events generalizing start with
  | nil => simpa using base
  | cons e es ih =>
      rw [List.foldl_cons]
      apply ih
      cases e with
      | clear =>
          show goodHistory ([] : List Message)
          exact ⟨by decide, by decide, rfl⟩
      | turn input bot => exact updateHistory_good start input bot base

/-! ### Claim theorems -/

/-- C1 (code bug evaluation): when the downstream handler fails on every
invocation, the logging middleware `log_requests` invokes it twice — the
claim (and the code's own comment) say the single failure is reported
without invoking the handler a second time, but the `except` branch of
src/api.py line 113 executes `return await call_next(request)` again. -/
theorem log_requests_invokes_failing_handler_twice :
    log_requests (fun _ => (Except.error "boom" : Except String Nat)) =
      (2, Except.error "boom") := rfl

/-- C2 (counterexample): on the first turn with input "Hello" the client
does not send the request body stated by the claim, because the payload's
`max_length` is 500 (src/chat.py line 42), not 200. -/
theorem first_turn_payload_not_as_claimed :
    buildPayload [] "Hello" ≠
      { message := "Hello", history := [], max_length := 200,
        temperature := 7/10 } := by
  intro hcontra
  have h200 : (buildPayload [] "Hello").max_length = 200 :=
    congrArg ChatRequest.max_length hcontra
  simp [buildPayload] at h200

/-- C2 (amended): on the first turn (empty local history) with user input
"Hello", the client sends the request body
`message = "Hello", history = [], max_length = 500, temperature = 0.7`,
and whenever the generation pipeline succeeds with text `t` the service
returns the body `response = t`. -/
theorem first_turn_payload_and_response (env : ModelEnv) (text : String)
    (hgen : chatPipeline env (buildPayload [] "Hello") = .ok text) :
    buildPayload [] "Hello" =
      { message := "Hello", history := [], max_length := 500,
        temperature := 7/10 } ∧
    chat env (buildPayload [] "Hello") = .ok { response := text } := by
  refine ⟨rfl, ?_⟩
  simp [chat, hgen]

/-- C2 (witness): the amended statement holds at the concrete always-succeed
environment, where the pipeline answers "Hi there!". -/
theorem first_turn_payload_and_response_witness :
    chatPipeline sampleEnv (buildPayload [] "Hello") = .ok "Hi there!" ∧
    (buildPayload [] "Hello" =
      { message := "Hello", history := [], max_length := 500,
        temperature := 7/10 } ∧
     chat sampleEnv (buildPayload [] "Hello") = .ok { response := "Hi there!" }) :=
  ⟨rfl, first_turn_payload_and_response sampleEnv "Hi there!" rfl⟩

/-- C3: the message list assembled for the model is exactly the request's
history followed by one `user` entry holding the new message: every role
and content passes through unchanged, in order, the length is
`history.length + 1`, and with empty history the list is exactly one user
turn. -/
theorem assembled_messages_are_history_plus_user (h : List Message)
    (m : String) :
    assembleMessages h m = h ++ [{ role := "user", content := m }] ∧
    (assembleMessages h m).length = h.length + 1 ∧
    assembleMessages [] m = [{ role := "user", content := m }] := by
  have hmap : (h.map fun msg =>
      ({ role := msg.role, content := msg.content } : Message)) = h :=
    List.map_id h
  refine ⟨?_, ?_, rfl⟩
  · rw [assembleMessages, hmap]
  · rw [assembleMessages, hmap]
    simp

/-- C5: whatever the local history is, the `history` field of the payload
the client sends holds at most 10 entries, and those entries are a suffix
of the local history — the most recent ones. -/
theorem payload_history_at_most_ten (h : List Message) (input : String) :
    (buildPayload h input).history.length ≤ 10 ∧
    (buildPayload h input).history <:+ h := by
  refine ⟨?_, ?_⟩
  · show (lastN 10 h).length ≤ 10
    exact lastN_length_le 10 h
  · show lastN 10 h <:+ h
    exact lastN_suffix 10 h

/-- C4: whenever any stage of the `/chat` pipeline raises with description
`e`, the service answers the HTTP 500 error whose `detail` field is `e`
(the endpoint itself never propagates the exception further), and a client
turn that receives an HTTP error response leaves the local history
unchanged and keeps the loop running. -/
theorem chat_error_gives_500_and_history_unchanged (env : ModelEnv)
    (req : ChatRequest) (e : String)
    (hfail : chatPipeline env req = .error e) :
    chat env req = .error { status := 500, detail := e } ∧
    ∀ (h : List Message) (raw : String) (st : Nat) (d : Option String),
      pyStrip raw ≠ "" →
      ¬(pyLower (pyStrip raw) = "quit" ∨ pyLower (pyStrip raw) = "exit") →
      pyLower (pyStrip raw) ≠ "clear" →
      clientStep h raw (.httpError st d) =
        { history := h, sentRequest := true, exited := false } := by
  constructor
  · unfold chat
    rw [hfail]
  · intro h raw st d h1 h2 h3
    simp [clientStep, h1, h2, h3]

/-- C4 (witness): at the concrete environment whose generation raises, the
service returns 500 with the failure description, and the client receiving
that error keeps its (empty) history and continues. -/
theorem chat_error_witness :
    chatPipeline failEnv { message := "Hi" } = .error "CUDA out of memory" ∧
    (chat failEnv { message := "Hi" } =
        .error { status := 500, detail := "CUDA out of memory" } ∧
     clientStep [] "Hi" (.httpError 500 (some "CUDA out of memory")) =
        { history := [], sentRequest := true, exited := false }) := by
  have ht := chat_error_gives_500_and_history_unchanged failEnv
    { message := "Hi" } "CUDA out of memory" rfl
  exact ⟨rfl, ht.1, ht.2 [] "Hi" 500 (some "CUDA out of memory")
    (by decide) (by decide) (by decide)⟩

/-- C6: after any sequence of history-changing events starting from the
empty history, the locally retained history holds at most 20 entries; and
whenever a completed turn makes the appended history exceed 20 entries,
the retained history is exactly the last 20 entries of it — a suffix of
length 20, the most recent entries. -/
theorem retained_history_bounded (events : List ClientEvent)
    (h : List Message) (input bot : String)
    (hover : 20 < (h ++ [({ role := "user", content := input } : Message),
                         ({ role := "assistant", content := bot } : Message)]).length) :
    (runClient events).length ≤ 20 ∧
    updateHistory h input bot =
      lastN 20 (h ++ [({ role := "user", content := input } : Message),
                      ({ role := "assistant", content := bot } : Message)]) ∧
    (updateHistory h input bot).length = 20 ∧
    updateHistory h input bot <:+
      h ++ [({ role := "user", content := input } : Message),
            ({ role := "assistant", content := bot } : Message)] := by
  have heq : updateHistory h input bot =
      lastN 20 (h ++ [({ role := "user", content := input } : Message),
                      ({ role := "assistant", content := bot } : Message)]) := by
    unfold updateHistory
    rw [if_pos hover]
  refine ⟨(runClient_good events).1, heq, ?_, ?_⟩
  · rw [heq, lastN_length]
    omega
  · rw [heq]
    exact lastN_suffix _ _

/-- C6 (witness): with a 20-entry local history, one more completed turn
overflows to 22 entries and the client retains exactly the most recent
20. -/
theorem retained_history_bounded_witness :
    20 < ((List.replicate 20 ({ role := "user", content := "x" } : Message)) ++
          [({ role := "user", content := "u" } : Message),
           ({ role := "assistant", content := "v" } : Message)]).length ∧
    ((runClient [ClientEvent.turn "a" "b"]).length ≤ 20 ∧
     updateHistory (List.replicate 20 ({ role := "user", content := "x" } : Message)) "u" "v" =
        lastN 20 ((List.replicate 20 ({ role := "user", content := "x" } : Message)) ++
          [({ role := "user", content := "u" } : Message),
           ({ role := "assistant", content := "v" } : Message)]) ∧
     (updateHistory (List.replicate 20 ({ role := "user", content := "x" } : Message)) "u" "v").length = 20 ∧
     updateHistory (List.replicate 20 ({ role := "user", content := "x" } : Message)) "u" "v" <:+
        (List.replicate 20 ({ role := "user", content := "x" } : Message)) ++
          [({ role := "user", content := "u" } : Message),
           ({ role := "assistant", content := "v" } : Message)]) :=
  ⟨by decide, retained_history_bounded [ClientEvent.turn "a" "b"]
    (List.replicate 20 { role := "user", content := "x" }) "u" "v" (by decide)⟩

/-- C7: the attention mask built before generation marks each position with
1 exactly when the token at that position is a genuine input token (differs
from the pad token id) and with 0 otherwise, position by position over the
whole assembled input. -/
theorem attention_mask_flags_genuine_tokens (input_ids : List Nat)
    (pad : Nat) :
    attentionMask input_ids pad =
      input_ids.map (fun t => if isGenuineToken pad t then 1 else 0) ∧
    (attentionMask input_ids pad).length = input_ids.length := by
  constructor
  · simp only [attentionMask, isGenuineToken]
    apply List.map_congr_left
    intro t _
    by_cases htp : t = pad <;> simp [htp]
  · simp [attentionMask]

/-- C8: when the tokenizer has no chat-templating capability, the service
encodes the plain transcript obtained by joining one `role: content` line
per message with newlines, in message order, instead of failing. -/
theorem fallback_prompt_is_plain_transcript (env : ModelEnv)
    (messages : List Message) (hno : env.hasChatTemplate = false) :
    promptIds env messages =
      env.encode (String.intercalate "\n"
        (messages.map fun m => m.role ++ ": " ++ m.content)) := by
  rw [promptIds, if_neg]
  · rfl
  · rw [hno]
    decide

/-- C8 (witness): the fallback holds at the concrete template-less
environment on a one-message list. -/
theorem fallback_prompt_witness :
    noTemplateEnv.hasChatTemplate = false ∧
    promptIds noTemplateEnv [{ role := "user", content := "hi" }] =
      noTemplateEnv.encode (String.intercalate "\n"
        ([({ role := "user", content := "hi" } : Message)].map
          fun m => m.role ++ ": " ++ m.content)) :=
  ⟨rfl, fallback_prompt_is_plain_transcript noTemplateEnv
    [{ role := "user", content := "hi" }] rfl⟩

/-- C9: whatever the client state, an input that strips and lowercases to
`clear` resets the local history to the empty list and issues no HTTP
request during that loop iteration. -/
theorem clear_resets_history_without_request (h : List Message)
    (raw : String) (reply : ServerReply)
    (hclear : pyLower (pyStrip raw) = "clear") :
    clientStep h raw reply =
      { history := [], sentRequest := false, exited := false } := by
  have hne : pyStrip raw ≠ "" := by
    intro h0
    rw [h0] at hclear
    exact absurd hclear (by decide)
  have hq : ¬(pyLower (pyStrip raw) = "quit" ∨ pyLower (pyStrip raw) = "exit") := by
    rw [hclear]
    decide
  simp [clientStep, hne, hq, hclear]

/-- C9 (witness): entering " Clear " with a non-empty history empties it
without a request. -/
theorem clear_resets_history_witness :
    pyLower (pyStrip " Clear ") = "clear" ∧
    clientStep [{ role := "user", content := "a" }] " Clear " (.ok "x") =
      { history := [], sentRequest := false, exited := false } :=
  ⟨by decide, clear_resets_history_without_request
    [{ role := "user", content := "a" }] " Clear " (.ok "x") (by decide)⟩

/-- C10: after any sequence of history-changing events starting from the
empty history, the locally retained history has even length and consists of
consecutive user/assistant pairs (beginning with `user`): entries are
appended and dropped two at a time, so truncation preserves the
alternation. -/
theorem local_history_alternates (events : List ClientEvent) :
    Even (runClient events).length ∧
    alternatingPairs (runClient events) = true :=
  ⟨(runClient_good events).2.1, (runClient_good events).2.2⟩

end OllamaLike
